import Mathlib

/-!
Shallow embedding of `copy_aliases.py`: a macOS-aware recursive directory
copier that dereferences Finder alias files.  External effects (running
`mdls`/`osascript`, filesystem queries) are modelled by an oracle
environment `Env`; the copy routines produce a trace of filesystem actions
together with an ok/raised status.
-/

namespace CopyAliases

/-! ### Constants from the script -/

def MDLS_BIN : String := "/usr/bin/mdls"

def OSASCRIPT_BIN : String := "/usr/bin/osascript"

def ALIAS_CONTENT_TYPE : String := "com.apple.alias-file"

def RESOLVE_ALIAS_SCRIPT : String :=
  "on run argv\n    set theItem to POSIX file (item 1 of argv)\n    tell application \"Finder\"\n        set resolved to (original item of (theItem as alias)) as alias\n        return POSIX path of resolved\n    end tell\nend run\n"

/-! ### Python string and path primitives -/

/-- Python whitespace characters stripped by `str.strip()`. -/
def pySpace (c : Char) : Bool :=
  (c == ' ') || (c == '\t') || (c == '\n') || (c == '\x0d') ||
    (c == Char.ofNat 11) || (c == Char.ofNat 12)

/-- Python `str.strip()`. -/
def pyStrip (s : String) : String :=
  ⟨((s.data.dropWhile pySpace).reverse.dropWhile pySpace).reverse⟩

/-- Python `str.lower()` (restricted to ASCII case folding). -/
def pyLower (s : String) : String :=
  ⟨s.data.map Char.toLower⟩

/-- Python `str.endswith(suffix)`. -/
def pyEndsWith (s suf : String) : Bool :=
  decide (suf.data <:+ s.data)

/-- Index of the last occurrence of `c` in `l`, if any (`str.rfind`). -/
def lastIdx (l : List Char) (c : Char) : Option Nat :=
  match l.reverse.findIdx? (· == c) with
  | none => none
  | some i => some (l.length - 1 - i)

/-- Python `posixpath.splitext`: split off the extension at the last dot of
the final path component, treating leading dots of the component as part of
the root. -/
def splitext (p : String) : String × String :=
  let cs := p.data
  match lastIdx cs '.' with
  | none => (p, "")
  | some d =>
    let s : Nat :=
      match lastIdx cs '/' with
      | none => 0
      | some i => i + 1
    if s ≤ d then
      if ((cs.drop s).take (d - s)).any (fun ch => !(ch == '.')) then
        (⟨cs.take d⟩, ⟨cs.drop d⟩)
      else (p, "")
    else (p, "")

/-- Python `posixpath.dirname`. -/
def dirname (p : String) : String :=
  let cs := p.data
  let i : Nat :=
    match lastIdx cs '/' with
    | none => 0
    | some j => j + 1
  let head := cs.take i
  if head ≠ [] ∧ head.any (fun ch => !(ch == '/')) then
    ⟨(head.reverse.dropWhile (· == '/')).reverse⟩
  else ⟨head⟩

/-- Python `posixpath.join` for two components. -/
def pjoin (a b : String) : String :=
  if b.startsWith "/" then b
  else if a = "" ∨ a.endsWith "/" then a ++ b
  else a ++ "/" ++ b

/-- Python truthiness of an `Optional[str]`: `None` and `""` are falsy. -/
def pyFalsy : Option String → Bool
  | none => true
  | some s => s == ""

/-! ### Effects and results -/

/-- Observable filesystem / console effects of one run. -/
inductive Action where
  | makeDirs (path : String)
  | copy2 (src dest : String) (followSymlinks : Bool)
  | warn (msg : String)
  | echo (msg : String)
  deriving DecidableEq, Repr

/-- Outcome of a (possibly raising) Python call. -/
inductive Status where
  | ok
  | error (msg : String)
  | outOfFuel
  deriving DecidableEq, Repr

/-- A trace of emitted actions together with the final status. -/
structure R where
  tr : List Action
  st : Status
  deriving DecidableEq, Repr

/-- Sequencing: run the continuation only when the first part succeeded;
actions emitted before a raise are kept. -/
def R.andThen (r : R) (f : Unit → R) : R :=
  match r.st with
  | Status.ok => let r2 := f (); ⟨r.tr ++ r2.tr, r2.st⟩
  | _ => r

/-! ### Oracle environment for external calls -/

/-- Oracle answers for the external world: `run_cmd` yields the
`(returncode, stdout)` of a spawned subprocess, the rest answer `os.path`
queries and `os.scandir` (child entry names, in order). -/
structure Env where
  runCmd : List String → Int × String
  isDir : String → Bool
  isLink : String → Bool
  pathExists : String → Bool
  scandir : String → List String

/-- `run_osascript`: spawn osascript; `None` on non-zero exit, else the
stripped stdout. -/
def run_osascript (env : Env) (script : String) (args : List String) : Option String :=
  let result := env.runCmd ([OSASCRIPT_BIN, "-e", script, "--"] ++ args)
  if result.1 ≠ 0 then none else some (pyStrip result.2)

/-- `is_alias_file`: probe the content type via `mdls`; any failure counts
as "not an alias". -/
def is_alias_file (env : Env) (path : String) : Bool :=
  let result := env.runCmd [MDLS_BIN, "-name", "kMDItemContentType", "-raw", path]
  if result.1 ≠ 0 then false else pyStrip result.2 == ALIAS_CONTENT_TYPE

/-- `resolve_alias`: one resolution hop through Finder. -/
def resolve_alias (env : Env) (path : String) : Option String :=
  run_osascript env RESOLVE_ALIAS_SCRIPT [path]

/-- The loop body of `resolve_alias_chain`, with the remaining iteration
count explicit.  A falsy (`None` or empty) hop result returns `none`; a
self-referential hop returns the current path; exhaustion returns the last
path reached. -/
def resolve_alias_chain_loop (env : Env) : Nat → String → Option String
  | 0, current => some current
  | n+1, current =>
    if is_alias_file env current then
      match resolve_alias env current with
      | none => none
      | some resolved =>
        if resolved = "" then none
        else if resolved = current then some current
        else resolve_alias_chain_loop env n resolved
    else some current

/-- `resolve_alias_chain(path, max_depth)` (the script's default
`max_depth` is 10). -/
def resolve_alias_chain (env : Env) (path : String) (max_depth : Nat) : Option String :=
  resolve_alias_chain_loop env max_depth path

/-- Number of loop iterations `resolve_alias_chain` actually enters (each
iteration performs one probe and at most one resolution hop). -/
def resolve_alias_chain_steps (env : Env) : Nat → String → Nat
  | 0, _ => 0
  | n+1, current =>
    if is_alias_file env current then
      match resolve_alias env current with
      | none => 1
      | some resolved =>
        if resolved = "" then 1
        else if resolved = current then 1
        else 1 + resolve_alias_chain_steps env n resolved
    else 1

/-- Chain resolution exactly as the specification's algorithm words it
(for refinement comparison with `resolve_alias_chain`): stop at a
non-alias, fail when one-hop resolution returns none, stop at a
self-referential alias, otherwise advance — with no special case for an
empty resolved path. -/
def spec_resolve_chain (env : Env) : Nat → String → Option String
  | 0, current => some current
  | n+1, current =>
    if is_alias_file env current then
      match resolve_alias env current with
      | none => none
      | some resolved =>
        if resolved = current then some current
        else spec_resolve_chain env n resolved
    else some current

/-! ### Filesystem helpers -/

/-- `ensure_dir`: create the directory unless it exists; an existing
non-directory raises `ValueError`. -/
def ensure_dir (env : Env) (path : String) : R :=
  if env.pathExists path then
    if ¬ env.isDir path then
      ⟨[], Status.error ("Destination exists and is not a directory: " ++ path)⟩
    else ⟨[], Status.ok⟩
  else ⟨[Action.makeDirs path], Status.ok⟩

/-- `copy_file`: make sure the parent directory exists, then `shutil.copy2`
with the given symlink-following mode. -/
def copy_file (env : Env) (src_path dest_path : String) (follow_symlinks : Bool) : R :=
  let parent := dirname dest_path
  R.andThen (if parent ≠ "" then ensure_dir env parent else ⟨[], Status.ok⟩)
    (fun _ => ⟨[Action.copy2 src_path dest_path follow_symlinks], Status.ok⟩)

/-- `ensure_target_extension`: append the resolved target's extension to
the destination name unless the target is a directory, has no extension, or
the name already ends with it (case-insensitively). -/
def ensure_target_extension (env : Env) (dest_path target_path : String) : String :=
  if env.isDir target_path then dest_path
  else
    let target_ext := (splitext target_path).2
    if target_ext = "" then dest_path
    else if pyEndsWith (pyLower dest_path) (pyLower target_ext) then dest_path
    else dest_path ++ target_ext

/-! ### The mutually recursive copy routines -/

/-- Which of the three mutually recursive copy routines to run. -/
inductive Call where
  | item (src dest : String) (verbose : Bool)
  | target (src dest : String) (verbose : Bool)
  | dir (src dest : String) (verbose : Bool)

/-- One fuelled interpreter for `copy_item` / `copy_target` /
`copy_directory`; fuel only bounds the recursion depth, which in the script
is bounded by the real directory nesting. -/
def runCopy (env : Env) : Nat → Call → R
  | 0, _ => ⟨[], Status.outOfFuel⟩
  | fuel+1, Call.item src dest vb =>
    if is_alias_file env src then
      let target := resolve_alias_chain env src 10
      if pyFalsy target then
        R.andThen ⟨[Action.warn ("warning: failed to resolve alias: " ++ src)], Status.ok⟩
          (fun _ => copy_file env src dest false)
      else
        let t := target.getD ""
        R.andThen ⟨if vb then [Action.echo ("alias: " ++ src ++ " -> " ++ t)] else [], Status.ok⟩
          (fun _ => runCopy env fuel (Call.target t (ensure_target_extension env dest t) vb))
    else if env.isDir src && !env.isLink src then
      runCopy env fuel (Call.dir src dest vb)
    else
      copy_file env src dest false
  | fuel+1, Call.target src dest vb =>
    let src2 :=
      if is_alias_file env src then
        match resolve_alias_chain env src 10 with
        | some r => if r = "" then src else r
        | none => src
      else src
    if env.isDir src2 then runCopy env fuel (Call.dir src2 dest vb)
    else copy_file env src2 dest true
  | fuel+1, Call.dir src dest vb =>
    R.andThen (ensure_dir env dest) (fun _ =>
      (env.scandir src).foldl
        (fun acc name =>
          R.andThen acc (fun _ =>
            runCopy env fuel (Call.item (pjoin src name) (pjoin dest name) vb)))
        ⟨[], Status.ok⟩)

/-- `copy_item(src, dest, verbose)`. -/
def copy_item (env : Env) (fuel : Nat) (src dest : String) (verbose : Bool) : R :=
  runCopy env fuel (Call.item src dest verbose)

/-- `copy_target(src, dest, verbose)`. -/
def copy_target (env : Env) (fuel : Nat) (src dest : String) (verbose : Bool) : R :=
  runCopy env fuel (Call.target src dest verbose)

/-- `copy_directory(src, dest, verbose)`. -/
def copy_directory (env : Env) (fuel : Nat) (src dest : String) (verbose : Bool) : R :=
  runCopy env fuel (Call.dir src dest verbose)

/-! ### The CLI entry point -/

/-- Oracle answers for `sys.platform` and the `os.path` normalisations used
by `main`. -/
structure SysEnv where
  platform : String
  abspath : String → String
  realpath : String → String
  commonpath2 : String → String → String

/-- How `main` finishes: a returned exit code, an uncaught exception, or
model fuel exhaustion. -/
inductive MainResult where
  | exitCode (code : Int)
  | raised (msg : String)
  | outOfFuel
  deriving DecidableEq, Repr

/-- `main()` after argument parsing: the platform and collision checks,
then `ensure_dir` on the destination and the recursive copy. -/
def main (sysv : SysEnv) (env : Env) (fuel : Nat) (source destination : String)
    (verbose : Bool) : List Action × MainResult :=
  if sysv.platform ≠ "darwin" then
    ([Action.warn "error: this script only supports macOS"], MainResult.exitCode 1)
  else
    let source := sysv.abspath source
    let destination := sysv.abspath destination
    if ¬ env.isDir source then
      ([Action.warn ("error: source is not a directory: " ++ source)], MainResult.exitCode 1)
    else
      let source_real := sysv.realpath source
      let destination_real := sysv.realpath destination
      if source_real = destination_real then
        ([Action.warn "error: source and destination are the same directory"],
          MainResult.exitCode 1)
      else if sysv.commonpath2 source_real destination_real = source_real then
        ([Action.warn "error: destination cannot be inside the source directory"],
          MainResult.exitCode 1)
      else
        let r := R.andThen (ensure_dir env destination)
          (fun _ => copy_directory env fuel source destination verbose)
        (r.tr,
          match r.st with
          | Status.ok => MainResult.exitCode 0
          | Status.error m => MainResult.raised m
          | Status.outOfFuel => MainResult.outOfFuel)

/-! ### Derived observations -/

/-- Actions that write to the filesystem. -/
def isWriteAction : Action → Bool
  | Action.makeDirs _ => true
  | Action.copy2 _ _ _ => true
  | _ => false

/-- The filesystem writes of a trace. -/
def writes (tr : List Action) : List Action :=
  tr.filter isWriteAction

/-- Effect of one action on a byte-content store (`shutil.copy2` replaces
the destination's bytes with the source's current bytes). -/
def applyAction (files : String → Option (List Nat)) : Action → String → Option (List Nat)
  | Action.copy2 src dest _ => fun q => if q = dest then files src else files q
  | _ => files

/-- Effect of a whole trace on a byte-content store. -/
def applyActions (files : String → Option (List Nat)) (acts : List Action) :
    String → Option (List Nat) :=
  acts.foldl applyAction files

/-! ### Concrete oracle environments for scenario runs -/

/-- Successor map of the twelve-path alias chain `a0 → a1 → … → a11`. -/
def cChain : String → String
  | "a0" => "a1" | "a1" => "a2" | "a2" => "a3" | "a3" => "a4" | "a4" => "a5"
  | "a5" => "a6" | "a6" => "a7" | "a7" => "a8" | "a8" => "a9" | "a9" => "a10"
  | "a10" => "a11"
  | _ => ""

/-- Oracle for a chain of eleven aliases `a0 … a10` ending at the regular
file `a11`; nothing is a directory or a symlink. -/
def envC : Env where
  runCmd := fun args =>
    match args with
    | [b, _, _, _, p] =>
      if b = MDLS_BIN then
        (0, if p = "a11" then "public.data" else ALIAS_CONTENT_TYPE)
      else (0, cChain p)
    | _ => (1, "")
  isDir := fun _ => false
  isLink := fun _ => false
  pathExists := fun _ => false
  scandir := fun _ => []

/-- The chain paths of `envC`: `aP i` is `"a<i>"`. -/
def aP : Nat → String :=
  fun n => "a" ++ toString n

/-- Oracle for a single alias `/S/Doc.alias` pointing at the regular file
`/Targets/report.pdf` (the resolver's stdout carries a trailing newline). -/
def envDoc : Env where
  runCmd := fun args =>
    match args with
    | [b, _, _, _, p] =>
      if b = MDLS_BIN then
        if p = "/S/Doc.alias" then (0, ALIAS_CONTENT_TYPE) else (0, "public.data")
      else
        if p = "/S/Doc.alias" then (0, "/Targets/report.pdf\n") else (1, "")
    | _ => (1, "")
  isDir := fun _ => false
  isLink := fun _ => false
  pathExists := fun _ => false
  scandir := fun _ => []

/-- Byte store for the `Doc.alias` scenario: `report.pdf` holds `%PDF`. -/
def docFiles : String → Option (List Nat) :=
  fun p => if p = "/Targets/report.pdf" then some [37, 80, 68, 70] else none

/-- The two-element chain of the `Doc.alias` scenario. -/
def docP : Nat → String :=
  fun i => if i = 0 then "/S/Doc.alias" else "/Targets/report.pdf"

/-- Oracle where `x` probes as an alias but the resolver exits 0 with empty
output. -/
def envE : Env where
  runCmd := fun args =>
    match args with
    | [b, _, _, _, p] =>
      if b = MDLS_BIN then
        if p = "x" then (0, ALIAS_CONTENT_TYPE) else (1, "")
      else (0, "")
    | _ => (1, "")
  isDir := fun _ => false
  isLink := fun _ => false
  pathExists := fun _ => false
  scandir := fun _ => []

/-- Oracle with no aliases, where `lnk` is a symbolic link to a directory. -/
def envL : Env where
  runCmd := fun _ => (1, "")
  isDir := fun p => p == "lnk"
  isLink := fun p => p == "lnk"
  pathExists := fun _ => false
  scandir := fun _ => []

/-- System oracle for witness runs of `main`. -/
def sysW : SysEnv where
  platform := "darwin"
  abspath := fun p => p
  realpath := fun p => p
  commonpath2 := fun a _ => a

/-! ### Helper lemmas about chain resolution -/

/-- If `p 0 → p 1 → … → p k` is a genuine alias chain (each of the first
`k` paths probes as an alias, each hop resolves to the nonempty next path
and makes progress) and either the fuel is exactly exhausted at `k` or
`p k` probes as a non-alias, the loop returns `p k`. -/
theorem resolve_alias_chain_loop_spec (env : Env) :
    ∀ (k : Nat) (p : Nat → String) (n : Nat), k ≤ n →
    (∀ i, i < k → is_alias_file env (p i) = true) →
    (∀ i, i < k → resolve_alias env (p i) = some (p (i+1))) →
    (∀ i, i < k → p (i+1) ≠ p i) →
    (∀ i, i < k → p (i+1) ≠ "") →
    (k = n ∨ is_alias_file env (p k) = false) →
    resolve_alias_chain_loop env n (p 0) = some (p k) := by
  intro k
  induction k with
  | zero =>
    intro p n _ _ _ _ _ hterm
    rcases hterm with h | h
    · subst h; rfl
    · cases n with
      | zero => rfl
      | succ m => simp [resolve_alias_chain_loop, h]
  | succ j ih =>
    intro p n hkn h1 h2 h3 h4 hterm
    cases n with
    | zero => omega
    | succ m =>
      have ha : is_alias_file env (p 0) = true := h1 0 (Nat.succ_pos j)
      have hr : resolve_alias env (p 0) = some (p 1) := h2 0 (Nat.succ_pos j)
      have hne : p 1 ≠ p 0 := h3 0 (Nat.succ_pos j)
      have hnn : p 1 ≠ "" := h4 0 (Nat.succ_pos j)
      have step : resolve_alias_chain_loop env (m+1) (p 0)
          = resolve_alias_chain_loop env m (p 1) := by
        simp [resolve_alias_chain_loop, ha, hr, hne, hnn]
      rw [step]
      have hres := ih (fun i => p (i+1)) m (by omega)
        (fun i hi => h1 (i+1) (by omega))
        (fun i hi => h2 (i+1) (by omega))
        (fun i hi => h3 (i+1) (by omega))
        (fun i hi => h4 (i+1) (by omega))
        (by
          rcases hterm with h | h
          · exact Or.inl (by omega)
          · exact Or.inr h)
      simpa using hres

/-- The loop never enters more iterations than its budget. -/
theorem resolve_alias_chain_steps_le (env : Env) :
    ∀ (n : Nat) (c : String), resolve_alias_chain_steps env n c ≤ n := by
  intro n
  induction n with
  | zero => intro c; simp [resolve_alias_chain_steps]
  | succ m ih =>
    intro c
    simp only [resolve_alias_chain_steps]
    split
    · split
      · omega
      · split
        · omega
        · split
          · omega
          · rename_i s heq hne1 hne2
            have := ih s
            omega
    · omega

/-- On a chain that is still alias-to-alias for `n` hops, the loop uses its
whole budget. -/
theorem resolve_alias_chain_steps_full (env : Env) :
    ∀ (n : Nat) (p : Nat → String),
    (∀ i, i < n → is_alias_file env (p i) = true) →
    (∀ i, i < n → resolve_alias env (p i) = some (p (i+1))) →
    (∀ i, i < n → p (i+1) ≠ p i) →
    (∀ i, i < n → p (i+1) ≠ "") →
    resolve_alias_chain_steps env n (p 0) = n := by
  intro n
  induction n with
  | zero => intro p _ _ _ _; rfl
  | succ m ih =>
    intro p h1 h2 h3 h4
    have ha : is_alias_file env (p 0) = true := h1 0 (Nat.succ_pos m)
    have hr : resolve_alias env (p 0) = some (p 1) := h2 0 (Nat.succ_pos m)
    have hne : p 1 ≠ p 0 := h3 0 (Nat.succ_pos m)
    have hnn : p 1 ≠ "" := h4 0 (Nat.succ_pos m)
    have step : resolve_alias_chain_steps env (m+1) (p 0)
        = 1 + resolve_alias_chain_steps env m (p 1) := by
      simp [resolve_alias_chain_steps, ha, hr, hne, hnn]
    have hres : resolve_alias_chain_steps env m (p 1) = m :=
      ih (fun i => p (i+1)) (fun i hi => h1 (i+1) (by omega))
        (fun i hi => h2 (i+1) (by omega)) (fun i hi => h3 (i+1) (by omega))
        (fun i hi => h4 (i+1) (by omega))
    simp only [step]
    omega

/-! ### Helper lemmas about the copy routines -/

/-- `copy_file` emits at most a parent `makeDirs` followed by the `copy2`;
with a sane parent directory it succeeds. -/
theorem copy_file_shape (env : Env) (src dest : String) (follow : Bool)
    (hp : env.pathExists (dirname dest) = true → env.isDir (dirname dest) = true) :
    copy_file env src dest follow =
      ⟨(if dirname dest ≠ "" ∧ env.pathExists (dirname dest) = false
          then [Action.makeDirs (dirname dest)] else []) ++
        [Action.copy2 src dest follow], Status.ok⟩ := by
  unfold copy_file ensure_dir
  by_cases h1 : dirname dest = ""
  · simp [h1, R.andThen]
  · by_cases h2 : env.pathExists (dirname dest) = true
    · have h3 := hp h2
      simp [h1, h2, h3, R.andThen]
    · simp [h1, h2, R.andThen]

/-- `copy_item` on an alias whose chain resolution succeeds with a truthy
path: optional verbose line, then one `copy_target` on the renamed
destination. -/
theorem copy_item_alias_success (env : Env) (fuel : Nat) (src dest : String)
    (vb : Bool) (t : String)
    (h1 : is_alias_file env src = true)
    (h2 : resolve_alias_chain env src 10 = some t)
    (h3 : t ≠ "") :
    copy_item env (fuel+1) src dest vb =
      ⟨(if vb then [Action.echo ("alias: " ++ src ++ " -> " ++ t)] else []) ++
          (copy_target env fuel t (ensure_target_extension env dest t) vb).tr,
        (copy_target env fuel t (ensure_target_extension env dest t) vb).st⟩ := by
  simp only [copy_item, copy_target, runCopy, h1, h2, if_true]
  simp [pyFalsy, h3, R.andThen]

/-- `copy_target` on a source that does not probe as an alias dispatches
directly: recursive directory copy for a directory, link-following file
copy otherwise. -/
theorem copy_target_dispatch (env : Env) (fuel : Nat) (src dest : String)
    (vb : Bool)
    (h1 : is_alias_file env src = false) :
    copy_target env (fuel+1) src dest vb =
      if env.isDir src then copy_directory env fuel src dest vb
      else copy_file env src dest true := by
  simp only [copy_target, copy_directory, runCopy, h1]
  simp

/-! ### Claim theorems -/

/-- C2: counterexample.  With `x` probing as an alias whose one hop
resolves (exit status 0) to the empty string, the claim's algorithm
(`spec_resolve_chain`) advances to `""`, finds it is not an alias and
returns it, but `resolve_alias_chain` treats the empty resolution result as
a failure and returns `none`. -/
theorem resolve_alias_chain_empty_hop_cex :
    spec_resolve_chain envE 10 "x" = some "" ∧
    resolve_alias_chain envE "x" 10 = none ∧
    spec_resolve_chain envE 10 "x" ≠ resolve_alias_chain envE "x" 10 := by decide

/-- C2 (amended): the claimed early exits hold, with one refinement: a hop
that resolves to the empty string is treated as a resolution failure
(returning `none`), and this check precedes the self-reference check. -/
theorem resolve_alias_chain_cases (env : Env) (n : Nat) (current : String) :
    (is_alias_file env current = false →
      resolve_alias_chain_loop env (n+1) current = some current) ∧
    (is_alias_file env current = true → resolve_alias env current = none →
      resolve_alias_chain_loop env (n+1) current = none) ∧
    (is_alias_file env current = true → resolve_alias env current = some "" →
      resolve_alias_chain_loop env (n+1) current = none) ∧
    (∀ r, is_alias_file env current = true → resolve_alias env current = some r →
      r ≠ "" → r = current →
      resolve_alias_chain_loop env (n+1) current = some current) ∧
    (∀ r, is_alias_file env current = true → resolve_alias env current = some r →
      r ≠ "" → r ≠ current →
      resolve_alias_chain_loop env (n+1) current = resolve_alias_chain_loop env n r) := by
  refine ⟨?_, ?_, ?_, ?_, ?_⟩ <;> intros <;> simp_all [resolve_alias_chain_loop]

/-- C2 witness: the non-alias early exit at a concrete oracle and path. -/
theorem resolve_alias_chain_cases_witness :
    resolve_alias_chain_loop envDoc 10 "zzz" = some "zzz" :=
  (resolve_alias_chain_cases envDoc 9 "zzz").1 (by decide)

/-- C6: chain resolution is a total function that enters at most
`max_depth` probe/resolve iterations; on a chain still alias-to-alias at
the default bound of 10 it performs exactly 10 hops and returns the last
path reached, reporting success rather than failure. -/
theorem resolve_alias_chain_bounded :
    (∀ (env : Env) (n : Nat) (c : String), resolve_alias_chain_steps env n c ≤ n) ∧
    (∀ (env : Env) (p : Nat → String),
      (∀ i, i < 10 → is_alias_file env (p i) = true) →
      (∀ i, i < 10 → resolve_alias env (p i) = some (p (i+1))) →
      (∀ i, i < 10 → p (i+1) ≠ p i) →
      (∀ i, i < 10 → p (i+1) ≠ "") →
      resolve_alias_chain env (p 0) 10 = some (p 10) ∧
      resolve_alias_chain_steps env 10 (p 0) = 10) := by
  constructor
  · exact resolve_alias_chain_steps_le
  · intro env p h1 h2 h3 h4
    refine ⟨?_, resolve_alias_chain_steps_full env 10 p h1 h2 h3 h4⟩
    exact resolve_alias_chain_loop_spec env 10 p 10 le_rfl h1 h2 h3 h4 (Or.inl rfl)

/-- C6 witness: the eleven-alias chain of `envC` is truncated at hop 10,
returning `a10` without failure, after exactly 10 iterations. -/
theorem resolve_alias_chain_bounded_witness :
    resolve_alias_chain envC (aP 0) 10 = some (aP 10) ∧
    resolve_alias_chain_steps envC 10 (aP 0) = 10 :=
  resolve_alias_chain_bounded.2 envC aP
    (by intro i hi; interval_cases i <;> decide)
    (by intro i hi; interval_cases i <;> decide)
    (by intro i hi; interval_cases i <;> decide)
    (by intro i hi; interval_cases i <;> decide)

/-- C7: counterexample.  On exit status 0 with empty stdout the external
call's output is empty, yet `resolve_alias` returns `some ""` rather than
`none`. -/
theorem resolve_alias_empty_output_cex :
    (envE.runCmd [OSASCRIPT_BIN, "-e", RESOLVE_ALIAS_SCRIPT, "--", "x"]).1 = 0 ∧
    (envE.runCmd [OSASCRIPT_BIN, "-e", RESOLVE_ALIAS_SCRIPT, "--", "x"]).2 = "" ∧
    resolve_alias envE "x" = some "" ∧ resolve_alias envE "x" ≠ none := by decide

/-- C7 (amended): `run_osascript` (and hence `resolve_alias`) returns
`none` exactly when the external call exits non-zero; an exit-0 run yields
the stripped stdout, so an empty output yields `some ""`, which chain
resolution then treats as a failure. -/
theorem run_osascript_none_iff (env : Env) (script : String) (args : List String)
    (path : String) (n : Nat) :
    (run_osascript env script args = none ↔
      (env.runCmd ([OSASCRIPT_BIN, "-e", script, "--"] ++ args)).1 ≠ 0) ∧
    ((env.runCmd ([OSASCRIPT_BIN, "-e", script, "--"] ++ args)).1 = 0 →
      run_osascript env script args =
        some (pyStrip (env.runCmd ([OSASCRIPT_BIN, "-e", script, "--"] ++ args)).2)) ∧
    (is_alias_file env path = true → resolve_alias env path = some "" →
      resolve_alias_chain_loop env (n+1) path = none) := by
  refine ⟨?_, ?_, ?_⟩
  · unfold run_osascript
    by_cases h : (env.runCmd ([OSASCRIPT_BIN, "-e", script, "--"] ++ args)).1 = 0 <;>
      simp [h]
  · intro h
    unfold run_osascript
    have h2 : (env.runCmd (OSASCRIPT_BIN :: "-e" :: script :: "--" :: args)).1 = 0 := by
      simpa using h
    simp [h2]
  · intro h1 h2
    simp [resolve_alias_chain_loop, h1, h2]

/-- C7 witness: the empty-output hop makes the chain resolver fail at the
concrete oracle `envE`. -/
theorem run_osascript_none_iff_witness :
    resolve_alias_chain_loop envE 10 "x" = none :=
  (run_osascript_none_iff envE RESOLVE_ALIAS_SCRIPT ["x"] "x" 9).2.2 (by decide) (by decide)

/-- C4: `ensure_target_extension` keeps the destination unchanged for
directory targets, extensionless targets, and destinations that already end
with the target's extension case-insensitively; otherwise it appends the
extension; in particular it never double-appends a carried extension. -/
theorem ensure_target_extension_spec (env : Env) (dest target : String) :
    (env.isDir target = true → ensure_target_extension env dest target = dest) ∧
    ((splitext target).2 = "" → ensure_target_extension env dest target = dest) ∧
    (pyEndsWith (pyLower dest) (pyLower (splitext target).2) = true →
      ensure_target_extension env dest target = dest) ∧
    (env.isDir target = false → (splitext target).2 ≠ "" →
      pyEndsWith (pyLower dest) (pyLower (splitext target).2) = false →
      ensure_target_extension env dest target = dest ++ (splitext target).2) ∧
    (ensure_target_extension env dest target = dest ∨
      ensure_target_extension env dest target = dest ++ (splitext target).2) := by
  refine ⟨?_, ?_, ?_, ?_, ?_⟩
  · intro h
    simp [ensure_target_extension, h]
  · intro h
    unfold ensure_target_extension
    split_ifs <;> simp_all
  · intro h
    unfold ensure_target_extension
    split_ifs <;> simp_all
  · intro h1 h2 h3
    unfold ensure_target_extension
    split_ifs <;> simp_all
  · by_cases h1 : env.isDir target = true
    · exact Or.inl (by simp [ensure_target_extension, h1])
    · by_cases h2 : (splitext target).2 = ""
      · exact Or.inl (by simp [ensure_target_extension, h1, h2])
      · by_cases h3 : pyEndsWith (pyLower dest) (pyLower (splitext target).2) = true
        · exact Or.inl (by simp [ensure_target_extension, h1, h2, h3])
        · exact Or.inr (by simp [ensure_target_extension, h1, h2, h3])

/-- C4 witness: a file target `t.pdf` makes the destination `Foo` gain
`.pdf`, while `Foo.PDF` is left unchanged (case-insensitive match). -/
theorem ensure_target_extension_spec_witness :
    ensure_target_extension envL "Foo" "t.pdf" = "Foo" ++ ".pdf" ∧
    ensure_target_extension envL "Foo.PDF" "t.pdf" = "Foo.PDF" := by
  constructor
  · exact (ensure_target_extension_spec envL "Foo" "t.pdf").2.2.2.1
      (by decide) (by decide) (by decide)
  · exact (ensure_target_extension_spec envL "Foo.PDF" "t.pdf").2.2.1 (by decide)

/-- C1: an alias whose chain of `k ≤ 10` hops ends at a regular file
(non-alias, non-directory) resolves to that final target; `copy_item`
copies the target's bytes, with link-following, into the alias's original
destination name carrying the target's extension — appended exactly when
the name does not already end with it case-insensitively. -/
theorem copy_item_alias_chain_regular_file
    (env : Env) (files : String → Option (List Nat)) (p : Nat → String)
    (k fuel : Nat) (dest : String) (vb : Bool)
    (hk1 : 1 ≤ k) (hk10 : k ≤ 10)
    (halias : ∀ i, i < k → is_alias_file env (p i) = true)
    (hhop : ∀ i, i < k → resolve_alias env (p i) = some (p (i+1)))
    (hprog : ∀ i, i < k → p (i+1) ≠ p i)
    (hnn : ∀ i, i < k → p (i+1) ≠ "")
    (hreg : is_alias_file env (p k) = false)
    (hnd : env.isDir (p k) = false) :
    resolve_alias_chain env (p 0) 10 = some (p k) ∧
    copy_item env (fuel+2) (p 0) dest vb =
      ⟨(if vb then [Action.echo ("alias: " ++ p 0 ++ " -> " ++ p k)] else []) ++
          (copy_file env (p k) (ensure_target_extension env dest (p k)) true).tr,
        (copy_file env (p k) (ensure_target_extension env dest (p k)) true).st⟩ ∧
    ((env.pathExists (dirname (ensure_target_extension env dest (p k))) = true →
        env.isDir (dirname (ensure_target_extension env dest (p k))) = true) →
      applyActions files (copy_item env (fuel+2) (p 0) dest vb).tr
          (ensure_target_extension env dest (p k)) = files (p k)) ∧
    ((splitext (p k)).2 ≠ "" →
      pyEndsWith (pyLower dest) (pyLower (splitext (p k)).2) = false →
      ensure_target_extension env dest (p k) = dest ++ (splitext (p k)).2) ∧
    (pyEndsWith (pyLower dest) (pyLower (splitext (p k)).2) = true →
      ensure_target_extension env dest (p k) = dest) := by
  have hchain : resolve_alias_chain env (p 0) 10 = some (p k) :=
    resolve_alias_chain_loop_spec env k p 10 hk10 halias hhop hprog hnn (Or.inr hreg)
  have hpk : p k ≠ "" := by
    have h := hnn (k-1) (by omega)
    have he : k - 1 + 1 = k := by omega
    rwa [he] at h
  have ha0 : is_alias_file env (p 0) = true := halias 0 (by omega)
  have hsucc : copy_item env (fuel+1+1) (p 0) dest vb =
      ⟨(if vb then [Action.echo ("alias: " ++ p 0 ++ " -> " ++ p k)] else []) ++
          (copy_target env (fuel+1) (p k) (ensure_target_extension env dest (p k)) vb).tr,
        (copy_target env (fuel+1) (p k) (ensure_target_extension env dest (p k)) vb).st⟩ :=
    copy_item_alias_success env (fuel+1) (p 0) dest vb (p k) ha0 hchain hpk
  have htgt : copy_target env (fuel+1) (p k) (ensure_target_extension env dest (p k)) vb =
      copy_file env (p k) (ensure_target_extension env dest (p k)) true := by
    rw [copy_target_dispatch env fuel (p k) (ensure_target_extension env dest (p k)) vb hreg]
    simp [hnd]
  have hitem : copy_item env (fuel+2) (p 0) dest vb =
      ⟨(if vb then [Action.echo ("alias: " ++ p 0 ++ " -> " ++ p k)] else []) ++
          (copy_file env (p k) (ensure_target_extension env dest (p k)) true).tr,
        (copy_file env (p k) (ensure_target_extension env dest (p k)) true).st⟩ := by
    rw [← htgt]
    exact hsucc
  refine ⟨hchain, hitem, ?_, ?_, ?_⟩
  · intro hp
    have hcf := copy_file_shape env (p k) (ensure_target_extension env dest (p k)) true hp
    rw [hitem, hcf]
    by_cases hv : vb <;>
      by_cases hm : dirname (ensure_target_extension env dest (p k)) ≠ "" ∧
          env.pathExists (dirname (ensure_target_extension env dest (p k))) = false <;>
        simp [hv, hm, applyActions, applyAction]
  · intro h1 h2
    unfold ensure_target_extension
    split_ifs <;> simp_all
  · intro h1
    unfold ensure_target_extension
    split_ifs <;> simp_all

/-- C1 witness: `Doc.alias` pointing at `/Targets/report.pdf` produces the
destination entry `Doc.alias.pdf` holding `report.pdf`'s bytes. -/
theorem copy_item_alias_chain_regular_file_witness :
    resolve_alias_chain envDoc (docP 0) 10 = some (docP 1) ∧
    applyActions docFiles (copy_item envDoc 2 (docP 0) "/D/Doc.alias" false).tr
      "/D/Doc.alias.pdf" = some [37, 80, 68, 70] := by
  have h := copy_item_alias_chain_regular_file envDoc docFiles docP 1 0 "/D/Doc.alias" false
    le_rfl (by omega)
    (fun i hi => by interval_cases i; decide)
    (fun i hi => by interval_cases i; decide)
    (fun i hi => by interval_cases i; decide)
    (fun i hi => by interval_cases i; decide)
    (by decide) (by decide)
  refine ⟨h.1, ?_⟩
  have h3 := h.2.2.1 (by decide)
  have he : ensure_target_extension envDoc "/D/Doc.alias" (docP 1) = "/D/Doc.alias.pdf" := by
    decide
  rw [he] at h3
  exact h3.trans (by decide)

/-- C3: counterexample.  With eleven aliases `a0 … a10` ending at the file
`a11`, `copy_item` resolves `a0` to `a10` (hop-bound truncation), but the
dispatch step classifies `a10` as an alias again and re-resolves it,
copying `a11` rather than copying the resolved target `a10` as a regular
file. -/
theorem copy_item_target_reresolved_cex :
    resolve_alias_chain envC "a0" 10 = some "a10" ∧
    envC.isDir "a10" = false ∧
    copy_item envC 2 "a0" "d" false = ⟨[Action.copy2 "a11" "d" true], Status.ok⟩ ∧
    (copy_item envC 2 "a0" "d" false).tr ≠ [Action.copy2 "a10" "d" true] := by decide

/-- C3 (amended): after a successful resolution whose result does not
itself probe as an alias, `copy_item` dispatches in a single further step —
a directory target has its contents recursively copied, any other target is
copied as a regular file with link-following — and the target is not
re-resolved; when the resolved result still probes as an alias (self-loop
or hop-bound truncation), `copy_target` probes and re-resolves it before
dispatching. -/
theorem copy_item_single_dispatch (env : Env) (fuel : Nat) (src dest : String)
    (vb : Bool) (t : String)
    (h1 : is_alias_file env src = true)
    (h2 : resolve_alias_chain env src 10 = some t)
    (h3 : t ≠ "")
    (h4 : is_alias_file env t = false) :
    copy_item env (fuel+2) src dest vb =
      ⟨(if vb then [Action.echo ("alias: " ++ src ++ " -> " ++ t)] else []) ++
          (if env.isDir t then
              copy_directory env fuel t (ensure_target_extension env dest t) vb
            else copy_file env t (ensure_target_extension env dest t) true).tr,
        (if env.isDir t then
            copy_directory env fuel t (ensure_target_extension env dest t) vb
          else copy_file env t (ensure_target_extension env dest t) true).st⟩ := by
  have hsucc := copy_item_alias_success env (fuel+1) src dest vb t h1 h2 h3
  have ht := copy_target_dispatch env fuel t (ensure_target_extension env dest t) vb h4
  show copy_item env (fuel+1+1) src dest vb = _
  rw [hsucc, ht]

/-- C3 witness: the `Doc.alias` entry dispatches once into a plain
link-following copy of `report.pdf` (verbose line included). -/
theorem copy_item_single_dispatch_witness :
    copy_item envDoc 2 "/S/Doc.alias" "/D/Doc.alias" true =
      ⟨[Action.echo "alias: /S/Doc.alias -> /Targets/report.pdf",
        Action.makeDirs "/D",
        Action.copy2 "/Targets/report.pdf" "/D/Doc.alias.pdf" true], Status.ok⟩ := by
  have h := copy_item_single_dispatch envDoc 0 "/S/Doc.alias" "/D/Doc.alias" true
    "/Targets/report.pdf" (by decide) (by decide) (by decide) (by decide)
  exact h.trans (by decide)

/-- C5: when chain resolution of an alias entry fails, `copy_item` warns on
the error stream and copies the alias file itself with symlink-following
disabled, then (given a sane destination parent) finishes with an ok
status, so the surrounding run continues. -/
theorem copy_item_unresolved_fallback (env : Env) (fuel : Nat) (src dest : String)
    (vb : Bool)
    (h1 : is_alias_file env src = true)
    (h2 : resolve_alias_chain env src 10 = none) :
    copy_item env (fuel+1) src dest vb =
      ⟨Action.warn ("warning: failed to resolve alias: " ++ src) ::
          (copy_file env src dest false).tr,
        (copy_file env src dest false).st⟩ ∧
    ((env.pathExists (dirname dest) = true → env.isDir (dirname dest) = true) →
      (copy_item env (fuel+1) src dest vb).st = Status.ok ∧
      (copy_item env (fuel+1) src dest vb).tr.getLast? =
        some (Action.copy2 src dest false)) := by
  have hmain : copy_item env (fuel+1) src dest vb =
      ⟨Action.warn ("warning: failed to resolve alias: " ++ src) ::
          (copy_file env src dest false).tr,
        (copy_file env src dest false).st⟩ := by
    simp only [copy_item, runCopy, h1, h2, if_true]
    simp [pyFalsy, R.andThen]
  refine ⟨hmain, fun hp => ?_⟩
  have hcf := copy_file_shape env src dest false hp
  rw [hmain, hcf]
  by_cases hm : dirname dest ≠ "" ∧ env.pathExists (dirname dest) = false <;> simp [hm]

/-- C5 witness: the unresolved alias `x` is warned about and copied
literally, and the run finishes ok. -/
theorem copy_item_unresolved_fallback_witness :
    copy_item envE 1 "x" "y" false =
      ⟨[Action.warn "warning: failed to resolve alias: x",
        Action.copy2 "x" "y" false], Status.ok⟩ := by
  have h := (copy_item_unresolved_fallback envE 0 "x" "y" false (by decide) (by decide)).1
  exact h.trans (by decide)

/-- C8: a non-alias entry that is a symbolic link (even to a directory) is
copied by `copy_item` without following links, while `copy_target` copies a
non-alias non-directory with link-following; `copy_file` records exactly
the requested follow mode in its final `copy2`. -/
theorem copy_follow_modes (env : Env) (fuel : Nat) (src dest : String) (vb : Bool) :
    (is_alias_file env src = false → env.isLink src = true →
      copy_item env (fuel+1) src dest vb = copy_file env src dest false) ∧
    (is_alias_file env src = false → env.isDir src = false →
      copy_target env (fuel+1) src dest vb = copy_file env src dest true) ∧
    ((env.pathExists (dirname dest) = true → env.isDir (dirname dest) = true) →
      ∀ follow : Bool, (copy_file env src dest follow).tr.getLast? =
        some (Action.copy2 src dest follow)) := by
  refine ⟨?_, ?_, ?_⟩
  · intro h1 h2
    simp [copy_item, runCopy, h1, h2]
  · intro h1 h2
    rw [copy_target_dispatch env fuel src dest vb h1]
    simp [h2]
  · intro hp follow
    rw [copy_file_shape env src dest follow hp]
    by_cases hm : dirname dest ≠ "" ∧ env.pathExists (dirname dest) = false <;> simp [hm]

/-- C8 witness: the directory symlink `lnk` is copied without following;
the plain file `f` reached by `copy_target` is copied with following. -/
theorem copy_follow_modes_witness :
    copy_item envL 1 "lnk" "q" false = copy_file envL "lnk" "q" false ∧
    copy_target envL 1 "f" "q" false = copy_file envL "f" "q" true :=
  ⟨(copy_follow_modes envL 0 "lnk" "q" false).1 (by decide) (by decide),
   (copy_follow_modes envL 0 "f" "q" false).2.1 (by decide) (by decide)⟩

/-- C9: when source and destination resolve to the same real path, or the
destination's real path lies inside the source's (the script's commonpath
test), `main` exits with code 1 having performed no filesystem writes. -/
theorem main_collision_no_writes (sysv : SysEnv) (env : Env) (fuel : Nat)
    (s d : String) (vb : Bool)
    (h : sysv.realpath (sysv.abspath s) = sysv.realpath (sysv.abspath d) ∨
      sysv.commonpath2 (sysv.realpath (sysv.abspath s)) (sysv.realpath (sysv.abspath d)) =
        sysv.realpath (sysv.abspath s)) :
    (main sysv env fuel s d vb).2 = MainResult.exitCode 1 ∧
    writes (main sysv env fuel s d vb).1 = [] := by
  unfold main
  by_cases h1 : sysv.platform ≠ "darwin"
  · simp [h1, writes, isWriteAction]
  · by_cases h2 : env.isDir (sysv.abspath s) = true
    · by_cases h3 : sysv.realpath (sysv.abspath s) = sysv.realpath (sysv.abspath d)
      · simp [h1, h2, h3, writes, isWriteAction]
      · rcases h with hx | h4
        · exact absurd hx h3
        · simp [h1, h2, h3, h4, writes, isWriteAction]
    · simp [h1, h2, writes, isWriteAction]

/-- C9 witness: identical source and destination paths exit 1 with no
writes at a concrete system oracle. -/
theorem main_collision_no_writes_witness :
    (main sysW envL 3 "/s" "/s" false).2 = MainResult.exitCode 1 ∧
    writes (main sysW envL 3 "/s" "/s" false).1 = [] :=
  main_collision_no_writes sysW envL 3 "/s" "/s" false (Or.inl rfl)

/-- C10: when the already-resolved source probes as an alias but its chain
resolution fails, `copy_target` copies that path as a single file with
link-following enabled and emits no warning — unlike `copy_item`'s
fallback, which warns and copies without following links. -/
theorem copy_target_unresolved_fallback (env : Env) (fuel : Nat) (src dest : String)
    (vb : Bool)
    (h1 : is_alias_file env src = true)
    (h2 : resolve_alias_chain env src 10 = none)
    (h3 : env.isDir src = false) :
    copy_target env (fuel+1) src dest vb = copy_file env src dest true ∧
    (∀ m, Action.warn m ∉ (copy_target env (fuel+1) src dest vb).tr) := by
  have hmain : copy_target env (fuel+1) src dest vb = copy_file env src dest true := by
    simp only [copy_target, runCopy, h1, h2, if_true]
    simp [h3]
  refine ⟨hmain, fun m => ?_⟩
  rw [hmain]
  unfold copy_file ensure_dir
  by_cases hd : dirname dest = ""
  · simp [hd, R.andThen]
  · by_cases he : env.pathExists (dirname dest) = true
    · by_cases hi : env.isDir (dirname dest) = true
      · simp [hd, he, hi, R.andThen]
      · simp [hd, he, hi, R.andThen]
    · simp [hd, he, R.andThen]

/-- C10 witness: the unresolvable alias `x`, fed to `copy_target`, is
copied with link-following and without any warning. -/
theorem copy_target_unresolved_fallback_witness :
    copy_target envE 1 "x" "y" false = copy_file envE "x" "y" true ∧
    Action.warn "warning: failed to resolve alias: x" ∉
      (copy_target envE 1 "x" "y" false).tr := by
  have h := copy_target_unresolved_fallback envE 0 "x" "y" false
    (by decide) (by decide) (by decide)
  exact ⟨h.1, h.2 _⟩

end CopyAliases
